import Mathlib

/-!
A verification development for the Pokemon Red reinforcement-learning
environment harness (pokered.h, binding.c, includes/mgba_wrapper.h).

The C code is shallowly embedded: machine bytes become naturals reduced
mod 256, C `float` arithmetic on the small decimal reward/observation
constants is modelled exactly over the rationals, the emulator's
byte-addressable memory and pixel framebuffer are function parameters
(they are external collaborator state that frame advancing mutates), and
the externally supplied event table (includes/events.h, data only) is a
list parameter of (address, bit) pairs.
-/

/-- The emulator's byte-addressable memory space, as seen through busRead8. -/
def Mem : Type := Nat → Nat

/-- mgba_wrapper.h read_mem: a single byte read (busRead8 yields a byte,
so reads are reduced mod 256). -/
def read_mem (m : Mem) (addr : Nat) : Nat := m addr % 256

/-- mgba_wrapper.h read_bcd: 3-byte packed-decimal decode,
value = value * 100 + (byte >> 4) * 10 + (byte & 0x0F) over bytes
addr, addr+1, addr+2. -/
def read_bcd (m : Mem) (addr : Nat) : Nat :=
  (List.range 3).foldl
    (fun value i =>
      let byte := read_mem m (addr + i)
      value * 100 + (byte >>> 4) * 10 + (byte &&& 0x0F)) 0

/-- Modelled from the spec: the packed-decimal encoder for the round-trip
property (the source contains only the decoder read_bcd). Each byte holds
two base-10 digits in its high/low nibbles, digit i carrying weight
10^(5-i). -/
def bcd_encode (n : Nat) : Nat × Nat × Nat :=
  ((n / 100000 % 10) * 16 + n / 10000 % 10,
   (n / 1000 % 10) * 16 + n / 100 % 10,
   (n / 10 % 10) * 16 + n % 10)

/-- A three-byte memory holding the packed-decimal encoding of n at
addresses 0, 1, 2. -/
def bcd_mem (n : Nat) : Mem := fun a =>
  if a = 0 then (bcd_encode n).1
  else if a = 1 then (bcd_encode n).2.1
  else if a = 2 then (bcd_encode n).2.2
  else 0

/-- The spec's concrete example: bytes (0x12, 0x34, 0x56). -/
def sample_money_mem : Mem := fun a =>
  if a = 0 then 0x12 else if a = 1 then 0x34 else if a = 2 then 0x56 else 0

/-- A memory whose every byte is 0xFF (not valid BCD). -/
def ff_mem : Mem := fun _ => 0xFF

/-- pokered.h coord_index: key = (map << 16) | (x << 8) | y.
The C parameters are uint8_t, so the arguments are truncated to bytes. -/
def coord_index (map x y : Nat) : Nat :=
  ((map % 256) <<< 16) ||| ((x % 256) <<< 8) ||| (y % 256)

/-- Modelled from the spec: decoding a coordinate key back into the
(map, x, y) triple (the source only ever encodes). -/
def coord_decode (key : Nat) : Nat × Nat × Nat :=
  (key / 65536, key / 256 % 256, key % 256)

/-! ## Constants and data model (pokered.h) -/

def SCREEN_WIDTH : Nat := 160
def SCALED_WIDTH : Nat := 80
def SCALED_HEIGHT : Nat := 72
def SCALED_PIXELS : Nat := SCALED_WIDTH * SCALED_HEIGHT
def EXTRA_OBS : Nat := 5
def TOTAL_OBSERVATIONS : Nat := SCALED_PIXELS + EXTRA_OBS

def PKMN_X_ADDR : Nat := 0xD362
def PKMN_Y_ADDR : Nat := 0xD361
def PKMN_MAP_ADDR : Nat := 0xD35E
def PKMN_BADGES_ADDR : Nat := 0xD356
def PKMN_PARTY_COUNT_ADDR : Nat := 0xD163
def PKMN_MONEY_ADDR : Nat := 0xD347
def PKM_LEVEL_ADDR_1 : Nat := 0xD18C
def PKM_LEVEL_ADDR_2 : Nat := 0xD1B8
def PKM_LEVEL_ADDR_3 : Nat := 0xD1E4
def PKM_LEVEL_ADDR_4 : Nat := 0xD210
def PKM_LEVEL_ADDR_5 : Nat := 0xD23C
def PKM_LEVEL_ADDR_6 : Nat := 0xD268

/- The C float reward constants, modelled as exact decimal rationals. -/
def REWARD_BADGE : ℚ := 1
def REWARD_POKEMON : ℚ := 1 / 2
def REWARD_UNIQUE_COORD : ℚ := 25 / 10000
def REWARD_LEVEL : ℚ := 25 / 100
def REWARD_EVENT : ℚ := 1 / 10

def MAX_MAPS : Nat := 256
def MAX_X : Nat := 256
def MAX_Y : Nat := 256
def VISITED_COORDS_SIZE : Nat := MAX_MAPS * MAX_X * MAX_Y

/-- RamState: the decoded game facts (all byte fields; money is the
3-byte packed-decimal decode). -/
structure RamState where
  x : Nat
  y : Nat
  map_n : Nat
  badges : Nat
  money : Nat
  party_count : Nat
  pkmn1_lvl : Nat
  pkmn2_lvl : Nat
  pkmn3_lvl : Nat
  pkmn4_lvl : Nat
  pkmn5_lvl : Nat
  pkmn6_lvl : Nat
deriving DecidableEq, Repr

/-- The Log accumulator (all float fields in C, modelled over ℚ). -/
structure Log where
  episode_length : ℚ
  level_sum : ℚ
  episode_return : ℚ
  pkmn1_lvl : ℚ
  money : ℚ
  pkmn2_lvl : ℚ
  event_sum : ℚ
  pkmn3_lvl : ℚ
  unique_coords : ℚ
  pkmn4_lvl : ℚ
  party_count : ℚ
  pkmn5_lvl : ℚ
  badges : ℚ
  pkmn6_lvl : ℚ
  n : ℚ
deriving DecidableEq

/-- The emulator handle (struct mGBA), reduced to the fields the harness
logic branches on.  The core pointer and the video-buffer pointer are
modelled by presence flags; the pixel contents of the video buffer are a
function parameter wherever they are read, since frame advancing (an
external collaborator effect) rewrites them. -/
structure mGBA where
  core : Bool
  video_buffer : Bool
  frame_skip : Int
  uses_shared_rom : Bool
deriving DecidableEq

/-- PokemonRedEnv.  The visited arrays are uint8_t[VISITED_COORDS_SIZE];
they are modelled as functions on Nat whose meaningful domain is
[0, VISITED_COORDS_SIZE).  The single-cell output buffers
(observations / rewards / terminals / truncations / actions) are plain
fields. -/
structure PokemonRedEnv where
  log : Log
  emu : mGBA
  ram : RamState
  prev_ram : RamState
  observations : List ℚ
  actions : Int
  rewards : ℚ
  terminals : Nat
  truncations : Nat
  frame_count : Int
  step_count : Int
  max_episode_length : Int
  score : ℚ
  stagnation : Int
  visited_coords : Nat → Nat
  prev_visited_coords : Nat → Nat
  unique_coords_count : Nat
  prev_event_sum : Nat
  full_reset : Bool

/-! ## State reader (pokered.h update_ram and friends) -/

/-- pokered.h update_ram, as the RamState it stores into env->ram. -/
def update_ram (m : Mem) : RamState where
  x := read_mem m PKMN_X_ADDR
  y := read_mem m PKMN_Y_ADDR
  map_n := read_mem m PKMN_MAP_ADDR
  badges := read_mem m PKMN_BADGES_ADDR
  money := read_bcd m PKMN_MONEY_ADDR
  party_count := read_mem m PKMN_PARTY_COUNT_ADDR
  pkmn1_lvl := read_mem m PKM_LEVEL_ADDR_1
  pkmn2_lvl := read_mem m PKM_LEVEL_ADDR_2
  pkmn3_lvl := read_mem m PKM_LEVEL_ADDR_3
  pkmn4_lvl := read_mem m PKM_LEVEL_ADDR_4
  pkmn5_lvl := read_mem m PKM_LEVEL_ADDR_5
  pkmn6_lvl := read_mem m PKM_LEVEL_ADDR_6

/-- pokered.h calc_level_sum. -/
def calc_level_sum (ram : RamState) : Nat :=
  ram.pkmn1_lvl + ram.pkmn2_lvl + ram.pkmn3_lvl +
  ram.pkmn4_lvl + ram.pkmn5_lvl + ram.pkmn6_lvl

/-- pokered.h calc_event_sum: sum over the (address, bit) entries of the
externally supplied EVENT_LIST of the single bit read at each address. -/
def calc_event_sum (m : Mem) (events : List (Nat × Nat)) : Nat :=
  events.foldl (fun sum e => sum + ((read_mem m e.1 >>> e.2) &&& 1)) 0

/-! ## Exploration tracker (pokered.h visited-coord helpers) -/

/-- pokered.h is_coord_visited. -/
def is_coord_visited (env : PokemonRedEnv) (idx : Nat) : Bool :=
  if idx ≥ VISITED_COORDS_SIZE then false
  else env.visited_coords idx ≠ 0

/-- pokered.h mark_coord_visited. -/
def mark_coord_visited (env : PokemonRedEnv) (idx : Nat) : PokemonRedEnv :=
  if idx ≥ VISITED_COORDS_SIZE then env
  else { env with visited_coords := Function.update env.visited_coords idx 1 }

/-- pokered.h clear_visited_coords: memset of the whole array to 0. -/
def clear_visited_coords (env : PokemonRedEnv) : PokemonRedEnv :=
  { env with visited_coords := fun _ => 0 }

/-! ## Observation encoder (pokered.h update_observations) -/

/-- The per-pixel luminance of one packed-RGB pixel:
0.299 * R + 0.587 * G + 0.114 * B with R = (p >> 16) & 0xFF,
G = (p >> 8) & 0xFF, B = p & 0xFF. -/
def luminance (pixel : Nat) : ℚ :=
  (299 : ℚ) / 1000 * (((pixel >>> 16) &&& 0xFF : Nat) : ℚ) +
  (587 : ℚ) / 1000 * (((pixel >>> 8) &&& 0xFF : Nat) : ℚ) +
  (114 : ℚ) / 1000 * ((pixel &&& 0xFF : Nat) : ℚ)

/-- One source pixel of the 2x2 block at scaled coordinate (sy, sx). -/
def pixel_at (fb : Nat → Nat) (sy sx dy dx : Nat) : Nat :=
  fb ((sy * 2 + dy) * SCREEN_WIDTH + (sx * 2 + dx))

/-- The inner dy/dx accumulation of update_observations:
gray_sum over the four pixels of one 2x2 block. -/
def block_gray_sum (fb : Nat → Nat) (sy sx : Nat) : ℚ :=
  0 + luminance (pixel_at fb sy sx 0 0) + luminance (pixel_at fb sy sx 0 1) +
  luminance (pixel_at fb sy sx 1 0) + luminance (pixel_at fb sy sx 1 1)

/-- The full observation vector update_observations writes: one scalar
per 2x2 block in row-major order (obs[sy * SCALED_WIDTH + sx]) followed
by the five extra features. -/
def encode_observation (fb : Nat → Nat) (ram : RamState) : List ℚ :=
  ((List.range SCALED_PIXELS).map fun i =>
    block_gray_sum fb (i / SCALED_WIDTH) (i % SCALED_WIDTH) * (25 / 100 : ℚ)) ++
  [(ram.x : ℚ), (ram.y : ℚ), (ram.map_n : ℚ), (ram.badges : ℚ),
    (ram.party_count : ℚ)]

/-- pokered.h update_observations.  fb is the current contents of the
emulator's pixel framebuffer; the function is a guarded no-op when the
video buffer is not attached (the C guard on env->emu.video_buffer and
env->observations). -/
def update_observations (fb : Nat → Nat) (env : PokemonRedEnv) :
    PokemonRedEnv :=
  if !env.emu.video_buffer then env
  else { env with observations := encode_observation fb env.ram }

/-! ## Reward shaper (pokered.h calculate_rewards) -/

/-- pokered.h calculate_rewards.  m is the emulator memory as read this
tick (update_ram and calc_event_sum both read it).  Returns the float
reward and the mutated environment; the C statements appear in source
order. -/
def calculate_rewards (events : List (Nat × Nat)) (m : Mem)
    (env : PokemonRedEnv) : ℚ × PokemonRedEnv :=
  let reward : ℚ := 0
  let env := { env with ram := update_ram m }
  let ram := env.ram
  let prev_ram := env.prev_ram
  let idx := coord_index ram.map_n ram.x ram.y
  let level_sum := calc_level_sum ram
  let prev_level_sum := calc_level_sum prev_ram
  let reward := if ram.badges > prev_ram.badges then reward + REWARD_BADGE
    else reward
  let reward :=
    if ram.party_count > prev_ram.party_count ∧ ram.party_count ≤ 6 then
      reward + REWARD_POKEMON
    else reward
  let visited := is_coord_visited env idx
  let env := if visited then env
    else { (mark_coord_visited env idx) with
      unique_coords_count := env.unique_coords_count + 1 }
  let reward := if visited then reward else reward + REWARD_UNIQUE_COORD
  let novel := env.prev_visited_coords idx = 0
  let reward := if novel then reward + REWARD_UNIQUE_COORD else reward
  let env := if novel then
      { env with
        prev_visited_coords := Function.update env.prev_visited_coords idx 1 }
    else env
  let reward :=
    if level_sum > prev_level_sum ∧ ram.party_count ≥ prev_ram.party_count then
      reward + REWARD_LEVEL * ((level_sum - prev_level_sum : Nat) : ℚ)
    else reward
  let event_sum := calc_event_sum m events
  let reward := if event_sum > env.prev_event_sum then
      reward + ((event_sum - env.prev_event_sum : Nat) : ℚ) * REWARD_EVENT
    else reward
  let env := { env with prev_event_sum := event_sum, prev_ram := env.ram }
  (reward, env)

/-! ## Episode lifecycle (pokered.h add_log, c_reset, c_step, c_close) -/

/-- pokered.h add_log. -/
def add_log (env : PokemonRedEnv) : PokemonRedEnv :=
  { env with log :=
    { episode_length := (env.step_count : ℚ)
      level_sum := (calc_level_sum env.ram : ℚ)
      episode_return := env.score
      pkmn1_lvl := (env.ram.pkmn1_lvl : ℚ)
      money := (env.ram.money : ℚ)
      pkmn2_lvl := (env.ram.pkmn2_lvl : ℚ)
      event_sum := (env.prev_event_sum : ℚ)
      pkmn3_lvl := (env.ram.pkmn3_lvl : ℚ)
      unique_coords := (env.unique_coords_count : ℚ)
      pkmn4_lvl := (env.ram.pkmn4_lvl : ℚ)
      party_count := (env.ram.party_count : ℚ)
      pkmn5_lvl := (env.ram.pkmn5_lvl : ℚ)
      badges := (env.ram.badges : ℚ)
      pkmn6_lvl := (env.ram.pkmn6_lvl : ℚ)
      n := env.log.n + 1 } }

/-- pokered.h c_reset.  m is the memory contents the reset observes
(after the optional full-reset state load, an external collaborator
effect), fb the framebuffer contents.  The trailing four settle frames
only drive the external emulator. -/
def c_reset (events : List (Nat × Nat)) (m : Mem) (fb : Nat → Nat)
    (env : PokemonRedEnv) : PokemonRedEnv :=
  if !env.emu.core then env
  else
    let env := { env with ram := update_ram m }
    let env := { env with prev_ram := env.ram }
    let env := update_observations fb env
    let env := clear_visited_coords env
    let idx := coord_index env.ram.map_n env.ram.x env.ram.y
    let env := mark_coord_visited env idx
    { env with
      rewards := 0
      terminals := 0
      step_count := 0
      frame_count := 0
      score := 0
      stagnation := 0
      unique_coords_count := 1
      prev_event_sum := calc_event_sum m events }

/-- The body of one c_step tick before the episode-length check: zero the
per-tick outputs, bump the step and frame counters (the batched frame
advance itself only drives the external emulator), shape the reward, and
re-encode the observation. -/
def c_step_tick (events : List (Nat × Nat)) (m : Mem) (fb : Nat → Nat)
    (env : PokemonRedEnv) : PokemonRedEnv :=
  let env := { env with
    rewards := 0
    terminals := 0
    step_count := env.step_count + 1 }
  let skip : Int := if env.emu.frame_skip > 0 then env.emu.frame_skip else 1
  let env := { env with frame_count := env.frame_count + skip }
  let res := calculate_rewards events m env
  let reward := res.1
  let env := update_observations fb res.2
  { env with rewards := reward, score := env.score + reward }

/-- pokered.h c_step.  m and fb are the memory and framebuffer contents
after the batched frame advance; mr and fbr are the contents the internal
c_reset observes when the episode terminates (they differ from m/fb only
through external emulator effects such as the full-reset state load). -/
def c_step (events : List (Nat × Nat)) (m mr : Mem) (fb fbr : Nat → Nat)
    (env : PokemonRedEnv) : PokemonRedEnv :=
  if !env.emu.core then env
  else
    let env := c_step_tick events m fb env
    if env.step_count ≥ env.max_episode_length then
      let env := add_log env
      let env := { env with prev_visited_coords := env.visited_coords }
      c_reset events mr fbr env
    else env

/-- pokered.h c_close: drops the core handle (after detaching the video
buffer and deinit, external effects), releases the shared ROM claim, and
frees the video buffer. -/
def c_close (env : PokemonRedEnv) : PokemonRedEnv :=
  let env := if env.emu.core then
      { env with emu := { env.emu with core := false } }
    else env
  let env := if env.emu.uses_shared_rom then
      { env with emu := { env.emu with uses_shared_rom := false } }
    else env
  if env.emu.video_buffer then
    { env with emu := { env.emu with video_buffer := false } }
  else env

/-- binding.c my_init: the exploration-tracker seeding at environment
construction — visited_coords is calloc'd (all zero), prev_visited_coords
is memset to 1 ("all visited"), and the unique-coordinate count starts
at 0. -/
def my_init_tracker (env : PokemonRedEnv) : PokemonRedEnv :=
  { env with
    visited_coords := fun _ => 0
    prev_visited_coords := fun _ => 1
    unique_coords_count := 0 }

/-- The coordinate key of the tick whose memory reads are m. -/
def step_idx (m : Mem) : Nat :=
  coord_index (update_ram m).map_n (update_ram m).x (update_ram m).y

/-! ## Concrete instances for witnesses -/

/-- The all-zero memory. -/
def mem0 : Mem := fun _ => 0

/-- The all-zero framebuffer. -/
def fb0 : Nat → Nat := fun _ => 0

def ram0 : RamState where
  x := 0
  y := 0
  map_n := 0
  badges := 0
  money := 0
  party_count := 0
  pkmn1_lvl := 0
  pkmn2_lvl := 0
  pkmn3_lvl := 0
  pkmn4_lvl := 0
  pkmn5_lvl := 0
  pkmn6_lvl := 0

def log0 : Log where
  episode_length := 0
  level_sum := 0
  episode_return := 0
  pkmn1_lvl := 0
  money := 0
  pkmn2_lvl := 0
  event_sum := 0
  pkmn3_lvl := 0
  unique_coords := 0
  pkmn4_lvl := 0
  party_count := 0
  pkmn5_lvl := 0
  badges := 0
  pkmn6_lvl := 0
  n := 0

/-- A live emulator handle. -/
def emu0 : mGBA where
  core := true
  video_buffer := true
  frame_skip := 1
  uses_shared_rom := false

/-- A freshly constructed live environment. -/
def env0 : PokemonRedEnv where
  log := log0
  emu := emu0
  ram := ram0
  prev_ram := ram0
  observations := []
  actions := 0
  rewards := 0
  terminals := 0
  truncations := 0
  frame_count := 0
  step_count := 0
  max_episode_length := 2
  score := 0
  stagnation := 0
  visited_coords := fun _ => 0
  prev_visited_coords := fun _ => 1
  unique_coords_count := 0
  prev_event_sum := 0
  full_reset := false

/-- env0 one step short of its episode-length limit. -/
def env_term : PokemonRedEnv := { env0 with max_episode_length := 1 }

/-- env0 with its emulator handle gone. -/
def env_nocore : PokemonRedEnv :=
  { env0 with emu := { env0.emu with core := false } }

/-- The spec's luminance formula L = 0.299 R + 0.587 G + 0.114 B with
the packed RGB channels written arithmetically. -/
def spec_luminance (p : Nat) : ℚ :=
  (299 : ℚ) / 1000 * ((p / 65536 % 256 : Nat) : ℚ) +
  (587 : ℚ) / 1000 * ((p / 256 % 256 : Nat) : ℚ) +
  (114 : ℚ) / 1000 * ((p % 256 : Nat) : ℚ)

/-! ## Theorems -/

/-- OR-ing a left shift with a value below the shift width is addition. -/
theorem shiftLeft_lor_eq_add (a b k : Nat) (hb : b < 2 ^ k) :
    a <<< k ||| b = a * 2 ^ k + b := by
  apply Nat.eq_of_testBit_eq
  intro i
  rw [Nat.testBit_lor, Nat.testBit_shiftLeft]
  rcases Nat.lt_or_ge i k with h | h
  · have hik : ¬ i ≥ k := by omega
    simp only [hik, decide_False, Bool.false_and, Bool.false_or]
    rw [Nat.testBit_to_div_mod, Nat.testBit_to_div_mod]
    obtain ⟨j, hj⟩ : ∃ j, k = i + j + 1 := ⟨k - i - 1, by omega⟩
    have hsplit : a * 2 ^ k + b = b + a * 2 ^ j * 2 * 2 ^ i := by
      subst hj
      rw [pow_add, pow_add]
      ring
    rw [hsplit, Nat.add_mul_div_right _ _ (Nat.pos_pow_of_pos i (by norm_num))]
    simp only [decide_eq_decide]
    omega
  · simp only [ge_iff_le, h, decide_True, Bool.true_and]
    have hbt : b.testBit i = false :=
      Nat.testBit_lt_two_pow
        (lt_of_lt_of_le hb (Nat.pow_le_pow_right (by norm_num) h))
    rw [hbt, Bool.or_false, Nat.testBit_to_div_mod, Nat.testBit_to_div_mod]
    have hdiv : (a * 2 ^ k + b) / 2 ^ i = a / 2 ^ (i - k) := by
      rw [show (2 : Nat) ^ i = 2 ^ k * 2 ^ (i - k) by
        rw [← pow_add]; congr 1; omega]
      rw [← Nat.div_div_eq_div_mul]
      congr 1
      rw [Nat.add_comm,
        Nat.add_mul_div_right _ _ (Nat.pos_pow_of_pos k (by norm_num)),
        Nat.div_eq_of_lt hb, Nat.zero_add]
    rw [hdiv]

/-- The coordinate key in plain arithmetic form. -/
theorem coord_index_arith (map x y : Nat) :
    coord_index map x y = (map % 256) * 65536 + (x % 256) * 256 + (y % 256) := by
  unfold coord_index
  have hy : y % 256 < 2 ^ 8 := by
    have := Nat.mod_lt y (show 0 < 256 by norm_num)
    omega
  have hx8 : (x % 256) <<< 8 < 2 ^ 16 := by
    rw [Nat.shiftLeft_eq]
    have := Nat.mod_lt x (show 0 < 256 by norm_num)
    norm_num
    omega
  rw [shiftLeft_lor_eq_add (map % 256) ((x % 256) <<< 8) 16 hx8,
    Nat.shiftLeft_eq]
  have hform : (map % 256) * 2 ^ 16 + (x % 256) * 2 ^ 8
      = ((map % 256) * 256 + (x % 256)) <<< 8 := by
    rw [Nat.shiftLeft_eq]
    ring
  rw [hform, shiftLeft_lor_eq_add _ (y % 256) 8 hy]
  have h28 : (2 : Nat) ^ 8 = 256 := by norm_num
  rw [h28]
  ring

/-- C7/C1 need that every produced key is a valid array index. -/
theorem coord_index_lt (map x y : Nat) : coord_index map x y < 16777216 := by
  rw [coord_index_arith]
  have h1 := Nat.mod_lt map (show 0 < 256 by norm_num)
  have h2 := Nat.mod_lt x (show 0 < 256 by norm_num)
  have h3 := Nat.mod_lt y (show 0 < 256 by norm_num)
  omega

/-- C6: the coordinate-key encoding (map << 16) | (x << 8) | y is a
bijection from (map, x, y) byte triples onto [0, 2^24): every key lies in
[0, 2^24), decoding a key recovers the original triple, and every value
in [0, 2^24) is the key of the triple it decodes to. -/
theorem coord_index_bijection (map x y : Nat)
    (hm : map < 256) (hx : x < 256) (hy : y < 256) :
    coord_index map x y < 2 ^ 24 ∧
    coord_decode (coord_index map x y) = (map, x, y) ∧
    (∀ key < 2 ^ 24,
      coord_index (coord_decode key).1 (coord_decode key).2.1
        (coord_decode key).2.2 = key) := by
  refine ⟨?_, ?_, ?_⟩
  · have := coord_index_lt map x y
    norm_num at this ⊢
    omega
  · rw [coord_index_arith, Nat.mod_eq_of_lt hm, Nat.mod_eq_of_lt hx,
      Nat.mod_eq_of_lt hy]
    unfold coord_decode
    refine Prod.ext ?_ (Prod.ext ?_ ?_) <;> simp <;> omega
  · intro key hkey
    unfold coord_decode
    rw [coord_index_arith]
    simp only
    norm_num at hkey
    omega

/-- Witness for C6 at the byte triple (3, 7, 11). -/
theorem coord_index_bijection_witness :
    (3 < 256 ∧ 7 < 256 ∧ 11 < 256) ∧
    (coord_index 3 7 11 < 2 ^ 24 ∧
      coord_decode (coord_index 3 7 11) = (3, 7, 11) ∧
      (∀ key < 2 ^ 24,
        coord_index (coord_decode key).1 (coord_decode key).2.1
          (coord_decode key).2.2 = key)) :=
  ⟨by norm_num, coord_index_bijection 3 7 11 (by norm_num) (by norm_num)
    (by norm_num)⟩

/-- C5: packed-decimal money round trip: for every n in [0, 999999],
encoding n into 3 BCD bytes and decoding with read_bcd yields n back,
and the bytes (0x12, 0x34, 0x56) decode to 123456. -/
theorem read_bcd_round_trip (n : Nat) (hn : n ≤ 999999) :
    read_bcd (bcd_mem n) 0 = n ∧ read_bcd sample_money_mem 0 = 123456 := by
  constructor
  · unfold read_bcd read_mem bcd_mem bcd_encode
    rw [show List.range 3 = [0, 1, 2] from rfl]
    simp only [List.foldl]
    norm_num
    rw [show (0x0F : Nat) = 2 ^ 4 - 1 from rfl]
    rw [Nat.and_pow_two_sub_one_eq_mod, Nat.and_pow_two_sub_one_eq_mod,
      Nat.and_pow_two_sub_one_eq_mod]
    rw [Nat.shiftRight_eq_div_pow, Nat.shiftRight_eq_div_pow,
      Nat.shiftRight_eq_div_pow]
    have b0 : n / 100000 % 10 * 16 + n / 10000 % 10 < 256 := by omega
    have b1 : n / 1000 % 10 * 16 + n / 100 % 10 < 256 := by omega
    have b2 : n / 10 % 10 * 16 + n % 10 < 256 := by omega
    rw [Nat.mod_eq_of_lt b0, Nat.mod_eq_of_lt b1, Nat.mod_eq_of_lt b2]
    have h16 : (2 : Nat) ^ 4 = 16 := by norm_num
    rw [h16]
    have e0 : (n / 100000 % 10 * 16 + n / 10000 % 10) / 16 = n / 100000 % 10 := by
      omega
    have f0 : (n / 100000 % 10 * 16 + n / 10000 % 10) % 16 = n / 10000 % 10 := by
      omega
    have e1 : (n / 1000 % 10 * 16 + n / 100 % 10) / 16 = n / 1000 % 10 := by
      omega
    have f1 : (n / 1000 % 10 * 16 + n / 100 % 10) % 16 = n / 100 % 10 := by
      omega
    have e2 : (n / 10 % 10 * 16 + n % 10) / 16 = n / 10 % 10 := by omega
    have f2 : (n / 10 % 10 * 16 + n % 10) % 16 = n % 10 := by omega
    rw [e0, f0, e1, f1, e2, f2]
    clear e0 f0 e1 f1 e2 f2 b0 b1 b2
    omega
  · decide

/-- Witness for C5 at n = 123456. -/
theorem read_bcd_round_trip_witness :
    123456 ≤ 999999 ∧
    (read_bcd (bcd_mem 123456) 0 = 123456 ∧
      read_bcd sample_money_mem 0 = 123456) :=
  ⟨by norm_num, read_bcd_round_trip 123456 (by norm_num)⟩

/-- C10 counterexample: with the three money bytes all 0xFF (arbitrary,
non-BCD contents), read_bcd yields 1666665, which is not ≤ 999999; the
claim's asserted range fails without a BCD-validity precondition. -/
theorem read_bcd_range_counterexample :
    read_bcd ff_mem 0 = 1666665 ∧ ¬ read_bcd ff_mem 0 ≤ 999999 := by
  constructor <;> decide

/-- C10 (amended): when each of the three money bytes is valid packed
decimal (both nibbles ≤ 9), the decoded money value lies in 0..999999. -/
theorem read_bcd_range (m : Mem) (addr : Nat)
    (h : ∀ i < 3, read_mem m (addr + i) >>> 4 ≤ 9 ∧
      read_mem m (addr + i) &&& 0x0F ≤ 9) :
    read_bcd m addr ≤ 999999 := by
  have h0 := h 0 (by norm_num)
  have h1 := h 1 (by norm_num)
  have h2 := h 2 (by norm_num)
  unfold read_bcd
  rw [show List.range 3 = [0, 1, 2] from rfl]
  simp only [List.foldl]
  omega

/-- Witness for C10 (amended) on the spec's example bytes. -/
theorem read_bcd_range_witness :
    (∀ i < 3, read_mem sample_money_mem (0 + i) >>> 4 ≤ 9 ∧
      read_mem sample_money_mem (0 + i) &&& 0x0F ≤ 9) ∧
    read_bcd sample_money_mem 0 ≤ 999999 :=
  ⟨by decide, read_bcd_range sample_money_mem 0 (by decide)⟩

theorem calc_rw_ram (events : List (Nat × Nat)) (m : Mem)
    (env : PokemonRedEnv) :
    (calculate_rewards events m env).2.ram = update_ram m := by
  simp only [calculate_rewards, mark_coord_visited, is_coord_visited]
  split_ifs <;> rfl

theorem calc_rw_prev_ram (events : List (Nat × Nat)) (m : Mem)
    (env : PokemonRedEnv) :
    (calculate_rewards events m env).2.prev_ram = update_ram m := by
  simp only [calculate_rewards, mark_coord_visited, is_coord_visited]
  split_ifs <;> rfl

theorem calc_rw_prev_event_sum (events : List (Nat × Nat)) (m : Mem)
    (env : PokemonRedEnv) :
    (calculate_rewards events m env).2.prev_event_sum
      = calc_event_sum m events := by
  simp only [calculate_rewards, mark_coord_visited, is_coord_visited]

theorem calc_rw_unique (events : List (Nat × Nat)) (m : Mem)
    (env : PokemonRedEnv) :
    (calculate_rewards events m env).2.unique_coords_count
      = if is_coord_visited env (step_idx m) then env.unique_coords_count
        else env.unique_coords_count + 1 := by
  simp only [calculate_rewards, mark_coord_visited, is_coord_visited, step_idx]
  split_ifs <;> rfl

theorem calc_rw_visited (events : List (Nat × Nat)) (m : Mem)
    (env : PokemonRedEnv) :
    (calculate_rewards events m env).2.visited_coords
      = if is_coord_visited env (step_idx m) then env.visited_coords
        else Function.update env.visited_coords (step_idx m) 1 := by
  have hlt := coord_index_lt (update_ram m).map_n (update_ram m).x
    (update_ram m).y
  simp only [calculate_rewards, mark_coord_visited, is_coord_visited, step_idx]
  dsimp only
  split_ifs <;> first
    | rfl
    | (simp only [VISITED_COORDS_SIZE, MAX_MAPS, MAX_X, MAX_Y] at *; omega)

theorem calc_rw_prev_visited (events : List (Nat × Nat)) (m : Mem)
    (env : PokemonRedEnv) :
    (calculate_rewards events m env).2.prev_visited_coords
      = if env.prev_visited_coords (step_idx m) = 0 then
          Function.update env.prev_visited_coords (step_idx m) 1
        else env.prev_visited_coords := by
  simp only [calculate_rewards, mark_coord_visited, is_coord_visited, step_idx]
  dsimp only
  split_ifs <;> rfl

theorem calc_rw_emu (events : List (Nat × Nat)) (m : Mem)
    (env : PokemonRedEnv) :
    (calculate_rewards events m env).2.emu = env.emu := by
  simp only [calculate_rewards, mark_coord_visited, is_coord_visited]
  split_ifs <;> rfl

theorem calc_rw_step_count (events : List (Nat × Nat)) (m : Mem)
    (env : PokemonRedEnv) :
    (calculate_rewards events m env).2.step_count = env.step_count := by
  simp only [calculate_rewards, mark_coord_visited, is_coord_visited]
  split_ifs <;> rfl

theorem calc_rw_terminals (events : List (Nat × Nat)) (m : Mem)
    (env : PokemonRedEnv) :
    (calculate_rewards events m env).2.terminals = env.terminals := by
  simp only [calculate_rewards, mark_coord_visited, is_coord_visited]
  split_ifs <;> rfl

theorem calc_rw_max_len (events : List (Nat × Nat)) (m : Mem)
    (env : PokemonRedEnv) :
    (calculate_rewards events m env).2.max_episode_length
      = env.max_episode_length := by
  simp only [calculate_rewards, mark_coord_visited, is_coord_visited]
  split_ifs <;> rfl

theorem calc_rw_score (events : List (Nat × Nat)) (m : Mem)
    (env : PokemonRedEnv) :
    (calculate_rewards events m env).2.score = env.score := by
  simp only [calculate_rewards, mark_coord_visited, is_coord_visited]
  split_ifs <;> rfl

set_option maxHeartbeats 2000000 in
theorem calc_rw_reward (events : List (Nat × Nat)) (m : Mem)
    (env : PokemonRedEnv) :
    (calculate_rewards events m env).1 =
      (if (update_ram m).badges > env.prev_ram.badges then REWARD_BADGE
        else 0) +
      (if (update_ram m).party_count > env.prev_ram.party_count ∧
          (update_ram m).party_count ≤ 6 then REWARD_POKEMON else 0) +
      (if is_coord_visited env (step_idx m) then 0 else REWARD_UNIQUE_COORD) +
      (if env.prev_visited_coords (step_idx m) = 0 then REWARD_UNIQUE_COORD
        else 0) +
      (if calc_level_sum (update_ram m) > calc_level_sum env.prev_ram ∧
          (update_ram m).party_count ≥ env.prev_ram.party_count then
        REWARD_LEVEL *
          ((calc_level_sum (update_ram m) - calc_level_sum env.prev_ram
            : Nat) : ℚ)
      else 0) +
      (if calc_event_sum m events > env.prev_event_sum then
        ((calc_event_sum m events - env.prev_event_sum : Nat) : ℚ) *
          REWARD_EVENT
      else 0) := by
  simp only [calculate_rewards, mark_coord_visited, is_coord_visited, step_idx]
  dsimp only
  split_ifs <;> ring

theorem upd_obs_terminals (fb : Nat → Nat) (env : PokemonRedEnv) :
    (update_observations fb env).terminals = env.terminals := by
  unfold update_observations
  split_ifs <;> rfl

theorem upd_obs_rewards (fb : Nat → Nat) (env : PokemonRedEnv) :
    (update_observations fb env).rewards = env.rewards := by
  unfold update_observations
  split_ifs <;> rfl

theorem upd_obs_step_count (fb : Nat → Nat) (env : PokemonRedEnv) :
    (update_observations fb env).step_count = env.step_count := by
  unfold update_observations
  split_ifs <;> rfl

theorem upd_obs_max_len (fb : Nat → Nat) (env : PokemonRedEnv) :
    (update_observations fb env).max_episode_length
      = env.max_episode_length := by
  unfold update_observations
  split_ifs <;> rfl

theorem upd_obs_score (fb : Nat → Nat) (env : PokemonRedEnv) :
    (update_observations fb env).score = env.score := by
  unfold update_observations
  split_ifs <;> rfl

theorem upd_obs_emu (fb : Nat → Nat) (env : PokemonRedEnv) :
    (update_observations fb env).emu = env.emu := by
  unfold update_observations
  split_ifs <;> rfl

theorem upd_obs_ram (fb : Nat → Nat) (env : PokemonRedEnv) :
    (update_observations fb env).ram = env.ram := by
  unfold update_observations
  split_ifs <;> rfl

theorem upd_obs_prev_ram (fb : Nat → Nat) (env : PokemonRedEnv) :
    (update_observations fb env).prev_ram = env.prev_ram := by
  unfold update_observations
  split_ifs <;> rfl

theorem upd_obs_visited (fb : Nat → Nat) (env : PokemonRedEnv) :
    (update_observations fb env).visited_coords = env.visited_coords := by
  unfold update_observations
  split_ifs <;> rfl

theorem upd_obs_prev_visited (fb : Nat → Nat) (env : PokemonRedEnv) :
    (update_observations fb env).prev_visited_coords
      = env.prev_visited_coords := by
  unfold update_observations
  split_ifs <;> rfl

theorem upd_obs_unique (fb : Nat → Nat) (env : PokemonRedEnv) :
    (update_observations fb env).unique_coords_count
      = env.unique_coords_count := by
  unfold update_observations
  split_ifs <;> rfl

theorem upd_obs_prev_event_sum (fb : Nat → Nat) (env : PokemonRedEnv) :
    (update_observations fb env).prev_event_sum = env.prev_event_sum := by
  unfold update_observations
  split_ifs <;> rfl

theorem upd_obs_frame_count (fb : Nat → Nat) (env : PokemonRedEnv) :
    (update_observations fb env).frame_count = env.frame_count := by
  unfold update_observations
  split_ifs <;> rfl

theorem upd_obs_stagnation (fb : Nat → Nat) (env : PokemonRedEnv) :
    (update_observations fb env).stagnation = env.stagnation := by
  unfold update_observations
  split_ifs <;> rfl

theorem upd_obs_observations (fb : Nat → Nat) (env : PokemonRedEnv)
    (h : env.emu.video_buffer = true) :
    (update_observations fb env).observations
      = encode_observation fb env.ram := by
  unfold update_observations
  rw [h]
  rfl

theorem tick_terminals (events : List (Nat × Nat)) (m : Mem) (fb : Nat → Nat)
    (env : PokemonRedEnv) :
    (c_step_tick events m fb env).terminals = 0 := by
  unfold c_step_tick
  dsimp only
  rw [upd_obs_terminals, calc_rw_terminals]

theorem tick_step_count (events : List (Nat × Nat)) (m : Mem) (fb : Nat → Nat)
    (env : PokemonRedEnv) :
    (c_step_tick events m fb env).step_count = env.step_count + 1 := by
  unfold c_step_tick
  dsimp only
  rw [upd_obs_step_count, calc_rw_step_count]

theorem tick_max_len (events : List (Nat × Nat)) (m : Mem) (fb : Nat → Nat)
    (env : PokemonRedEnv) :
    (c_step_tick events m fb env).max_episode_length
      = env.max_episode_length := by
  unfold c_step_tick
  dsimp only
  rw [upd_obs_max_len, calc_rw_max_len]

theorem tick_emu (events : List (Nat × Nat)) (m : Mem) (fb : Nat → Nat)
    (env : PokemonRedEnv) :
    (c_step_tick events m fb env).emu = env.emu := by
  unfold c_step_tick
  dsimp only
  rw [upd_obs_emu, calc_rw_emu]

theorem tick_ram (events : List (Nat × Nat)) (m : Mem) (fb : Nat → Nat)
    (env : PokemonRedEnv) :
    (c_step_tick events m fb env).ram = update_ram m := by
  unfold c_step_tick
  dsimp only
  rw [upd_obs_ram, calc_rw_ram]

theorem tick_prev_ram (events : List (Nat × Nat)) (m : Mem) (fb : Nat → Nat)
    (env : PokemonRedEnv) :
    (c_step_tick events m fb env).prev_ram = update_ram m := by
  unfold c_step_tick
  dsimp only
  rw [upd_obs_prev_ram, calc_rw_prev_ram]

theorem tick_prev_event_sum (events : List (Nat × Nat)) (m : Mem)
    (fb : Nat → Nat) (env : PokemonRedEnv) :
    (c_step_tick events m fb env).prev_event_sum
      = calc_event_sum m events := by
  unfold c_step_tick
  dsimp only
  rw [upd_obs_prev_event_sum, calc_rw_prev_event_sum]

theorem tick_unique (events : List (Nat × Nat)) (m : Mem) (fb : Nat → Nat)
    (env : PokemonRedEnv) :
    (c_step_tick events m fb env).unique_coords_count
      = if is_coord_visited env (step_idx m) then env.unique_coords_count
        else env.unique_coords_count + 1 := by
  unfold c_step_tick
  dsimp only
  rw [upd_obs_unique, calc_rw_unique]
  rfl

theorem tick_visited (events : List (Nat × Nat)) (m : Mem) (fb : Nat → Nat)
    (env : PokemonRedEnv) :
    (c_step_tick events m fb env).visited_coords
      = if is_coord_visited env (step_idx m) then env.visited_coords
        else Function.update env.visited_coords (step_idx m) 1 := by
  unfold c_step_tick
  dsimp only
  rw [upd_obs_visited, calc_rw_visited]
  rfl

theorem tick_prev_visited (events : List (Nat × Nat)) (m : Mem)
    (fb : Nat → Nat) (env : PokemonRedEnv) :
    (c_step_tick events m fb env).prev_visited_coords
      = if env.prev_visited_coords (step_idx m) = 0 then
          Function.update env.prev_visited_coords (step_idx m) 1
        else env.prev_visited_coords := by
  unfold c_step_tick
  dsimp only
  rw [upd_obs_prev_visited, calc_rw_prev_visited]

theorem reset_outputs (events : List (Nat × Nat)) (m : Mem) (fb : Nat → Nat)
    (env : PokemonRedEnv) (h : env.emu.core = true) :
    (c_reset events m fb env).rewards = 0 ∧
    (c_reset events m fb env).terminals = 0 ∧
    (c_reset events m fb env).step_count = 0 ∧
    (c_reset events m fb env).frame_count = 0 ∧
    (c_reset events m fb env).score = 0 ∧
    (c_reset events m fb env).stagnation = 0 ∧
    (c_reset events m fb env).unique_coords_count = 1 ∧
    (c_reset events m fb env).prev_event_sum = calc_event_sum m events := by
  simp only [c_reset, h, Bool.not_true, Bool.false_eq_true, if_false,
    update_observations, clear_visited_coords, mark_coord_visited]
  simp

theorem reset_ram (events : List (Nat × Nat)) (m : Mem) (fb : Nat → Nat)
    (env : PokemonRedEnv) (h : env.emu.core = true) :
    (c_reset events m fb env).ram = update_ram m := by
  simp only [c_reset, h, Bool.not_true, Bool.false_eq_true, if_false,
    update_observations, clear_visited_coords, mark_coord_visited]
  split_ifs <;> rfl

theorem reset_prev_ram (events : List (Nat × Nat)) (m : Mem) (fb : Nat → Nat)
    (env : PokemonRedEnv) (h : env.emu.core = true) :
    (c_reset events m fb env).prev_ram = update_ram m := by
  simp only [c_reset, h, Bool.not_true, Bool.false_eq_true, if_false,
    update_observations, clear_visited_coords, mark_coord_visited]
  split_ifs <;> rfl

theorem reset_prev_visited (events : List (Nat × Nat)) (m : Mem)
    (fb : Nat → Nat) (env : PokemonRedEnv) (h : env.emu.core = true) :
    (c_reset events m fb env).prev_visited_coords
      = env.prev_visited_coords := by
  simp only [c_reset, h, Bool.not_true, Bool.false_eq_true, if_false,
    update_observations, clear_visited_coords, mark_coord_visited]
  split_ifs <;> rfl

theorem reset_emu (events : List (Nat × Nat)) (m : Mem) (fb : Nat → Nat)
    (env : PokemonRedEnv) (h : env.emu.core = true) :
    (c_reset events m fb env).emu = env.emu := by
  simp only [c_reset, h, Bool.not_true, Bool.false_eq_true, if_false,
    update_observations, clear_visited_coords, mark_coord_visited]
  split_ifs <;> rfl

theorem reset_visited (events : List (Nat × Nat)) (m : Mem) (fb : Nat → Nat)
    (env : PokemonRedEnv) (h : env.emu.core = true) :
    (c_reset events m fb env).visited_coords
      = Function.update (fun _ => 0) (step_idx m) 1 := by
  have hlt := coord_index_lt (update_ram m).map_n (update_ram m).x
    (update_ram m).y
  simp only [c_reset, h, Bool.not_true, Bool.false_eq_true, if_false,
    update_observations, clear_visited_coords, mark_coord_visited, step_idx]
  split_ifs <;> first
    | rfl
    | (simp only [VISITED_COORDS_SIZE, MAX_MAPS, MAX_X, MAX_Y] at *; omega)

theorem add_log_emu (env : PokemonRedEnv) : (add_log env).emu = env.emu := rfl

theorem c_step_eq_terminal (events : List (Nat × Nat)) (m mr : Mem)
    (fb fbr : Nat → Nat) (env : PokemonRedEnv) (h : env.emu.core = true)
    (hterm : env.step_count + 1 ≥ env.max_episode_length) :
    c_step events m mr fb fbr env
      = c_reset events mr fbr
          { add_log (c_step_tick events m fb env) with
            prev_visited_coords :=
              (c_step_tick events m fb env).visited_coords } := by
  unfold c_step
  simp only [h, Bool.not_true, Bool.false_eq_true, if_false]
  have hcond : (c_step_tick events m fb env).step_count
      ≥ (c_step_tick events m fb env).max_episode_length := by
    rw [tick_step_count, tick_max_len]
    exact hterm
  rw [if_pos hcond]
  rfl

theorem c_step_eq_nonterm (events : List (Nat × Nat)) (m mr : Mem)
    (fb fbr : Nat → Nat) (env : PokemonRedEnv) (h : env.emu.core = true)
    (hterm : ¬ env.step_count + 1 ≥ env.max_episode_length) :
    c_step events m mr fb fbr env = c_step_tick events m fb env := by
  unfold c_step
  simp only [h, Bool.not_true, Bool.false_eq_true, if_false]
  have hcond : ¬ (c_step_tick events m fb env).step_count
      ≥ (c_step_tick events m fb env).max_episode_length := by
    rw [tick_step_count, tick_max_len]
    exact hterm
  rw [if_neg hcond]

/-! ## Claim theorems -/

/-- C1: every tick, the reward produced by calculate_rewards equals the
exact sum of the component table — badge bonus when the badge bitfield
increased, catch bonus when party size increased and is ≤ 6, the small
coordinate bonus when the coordinate is newly visited this episode, the
same small bonus independently when the coordinate is absent from the
last-episode snapshot, the level bonus times the level-sum delta when the
level sum increased and party size did not decrease, and the event bonus
times the event-score delta when the event score increased — and the
reward is never negative (no penalty term). -/
theorem calculate_rewards_table (events : List (Nat × Nat)) (m : Mem)
    (env : PokemonRedEnv) :
    (calculate_rewards events m env).1 =
      (if (update_ram m).badges > env.prev_ram.badges then REWARD_BADGE
        else 0) +
      (if (update_ram m).party_count > env.prev_ram.party_count ∧
          (update_ram m).party_count ≤ 6 then REWARD_POKEMON else 0) +
      (if is_coord_visited env (step_idx m) then 0 else REWARD_UNIQUE_COORD) +
      (if env.prev_visited_coords (step_idx m) = 0 then REWARD_UNIQUE_COORD
        else 0) +
      (if calc_level_sum (update_ram m) > calc_level_sum env.prev_ram ∧
          (update_ram m).party_count ≥ env.prev_ram.party_count then
        REWARD_LEVEL *
          ((calc_level_sum (update_ram m) - calc_level_sum env.prev_ram
            : Nat) : ℚ)
      else 0) +
      (if calc_event_sum m events > env.prev_event_sum then
        ((calc_event_sum m events - env.prev_event_sum : Nat) : ℚ) *
          REWARD_EVENT
      else 0) ∧
    0 ≤ (calculate_rewards events m env).1 := by
  refine ⟨calc_rw_reward events m env, ?_⟩
  rw [calc_rw_reward]
  simp only [REWARD_BADGE, REWARD_POKEMON, REWARD_UNIQUE_COORD, REWARD_LEVEL,
    REWARD_EVENT]
  split_ifs <;> positivity

/-- C7: within an episode, the unique-coordinate count gains exactly 1 on
a tick whose coordinate is new this episode, is unchanged on any other
tick, and never decreases. -/
theorem unique_coords_monotone (events : List (Nat × Nat)) (m mr : Mem)
    (fb fbr : Nat → Nat) (env : PokemonRedEnv) :
    (is_coord_visited env (step_idx m) = false →
      (calculate_rewards events m env).2.unique_coords_count
        = env.unique_coords_count + 1) ∧
    (is_coord_visited env (step_idx m) = true →
      (calculate_rewards events m env).2.unique_coords_count
        = env.unique_coords_count) ∧
    env.unique_coords_count
      ≤ (calculate_rewards events m env).2.unique_coords_count ∧
    (env.emu.core = true → ¬ env.step_count + 1 ≥ env.max_episode_length →
      (c_step events m mr fb fbr env).unique_coords_count
        = if is_coord_visited env (step_idx m) then env.unique_coords_count
          else env.unique_coords_count + 1) := by
  refine ⟨?_, ?_, ?_, ?_⟩
  · rw [calc_rw_unique]
    intro hv
    rw [hv]
    simp
  · rw [calc_rw_unique]
    intro hv
    rw [hv]
    simp
  · rw [calc_rw_unique]
    split_ifs <;> omega
  · intro hc hterm
    rw [c_step_eq_nonterm events m mr fb fbr env hc hterm]
    exact tick_unique events m fb env

/-- Witness for C7: on a fresh environment the start coordinate is new
and the count rises from 0 to 1. -/
theorem unique_coords_monotone_witness :
    is_coord_visited env0 (step_idx mem0) = false ∧
    (calculate_rewards [] mem0 env0).2.unique_coords_count
      = env0.unique_coords_count + 1 :=
  ⟨by decide, (unique_coords_monotone [] mem0 mem0 fb0 fb0 env0).1 (by decide)⟩

/-- C2 counterexample: a live environment one step short of its episode
length limit.  The c_step call that reaches the limit returns with the
terminal flag equal to 0 — the internal c_reset cleared the flag that was
set moments before — contradicting the claim that the caller reads 1. -/
theorem c_step_terminal_flag_counterexample :
    env_term.emu.core = true ∧
    env_term.step_count + 1 ≥ env_term.max_episode_length ∧
    (c_step [] mem0 mem0 fb0 fb0 env_term).terminals ≠ 1 := by
  refine ⟨rfl, by norm_num [env_term, env0], ?_⟩
  rw [c_step_eq_terminal [] mem0 mem0 fb0 fb0 env_term rfl
    (by norm_num [env_term, env0])]
  have h0 := (reset_outputs [] mem0 fb0
    { add_log (c_step_tick [] mem0 fb0 env_term) with
      prev_visited_coords :=
        (c_step_tick [] mem0 fb0 env_term).visited_coords } rfl).2.1
  rw [h0]
  norm_num

/-- C2 (amended): on a live environment, the c_step call that reaches
max_episode_length performs the terminal processing and the internal
reset, so the state it returns already reflects a completed reset
(step counter 0, previous facts equal to current facts, one unique
coordinate, zero cumulative score) — but the terminal flag the caller
reads is 0, cleared by that internal reset, exactly as on every other
step. -/
theorem c_step_terminal_behavior (events : List (Nat × Nat)) (m mr : Mem)
    (fb fbr : Nat → Nat) (env : PokemonRedEnv) (h : env.emu.core = true) :
    (c_step events m mr fb fbr env).terminals = 0 ∧
    (env.step_count + 1 ≥ env.max_episode_length →
      (c_step events m mr fb fbr env).step_count = 0 ∧
      (c_step events m mr fb fbr env).prev_ram
        = (c_step events m mr fb fbr env).ram ∧
      (c_step events m mr fb fbr env).unique_coords_count = 1 ∧
      (c_step events m mr fb fbr env).score = 0) := by
  by_cases hterm : env.step_count + 1 ≥ env.max_episode_length
  · rw [c_step_eq_terminal events m mr fb fbr env h hterm]
    have hc : ({ add_log (c_step_tick events m fb env) with
        prev_visited_coords :=
          (c_step_tick events m fb env).visited_coords }).emu.core = true := by
      have e1 : ({ add_log (c_step_tick events m fb env) with
          prev_visited_coords :=
            (c_step_tick events m fb env).visited_coords }).emu
          = (add_log (c_step_tick events m fb env)).emu := rfl
      rw [e1, add_log_emu, tick_emu]
      exact h
    obtain ⟨h1, h2, h3, h4, h5, h6, h7, h8⟩ := reset_outputs events mr fbr
      { add_log (c_step_tick events m fb env) with
        prev_visited_coords :=
          (c_step_tick events m fb env).visited_coords } hc
    refine ⟨h2, fun _ => ⟨h3, ?_, h7, h5⟩⟩
    rw [reset_prev_ram _ _ _ _ hc, reset_ram _ _ _ _ hc]
  · rw [c_step_eq_nonterm events m mr fb fbr env h hterm]
    exact ⟨tick_terminals events m fb env, fun hx => absurd hx hterm⟩

/-- Witness for C2 (amended) on the concrete terminating environment. -/
theorem c_step_terminal_behavior_witness :
    env_term.emu.core = true ∧
    env_term.step_count + 1 ≥ env_term.max_episode_length ∧
    (c_step [] mem0 mem0 fb0 fb0 env_term).terminals = 0 ∧
    (c_step [] mem0 mem0 fb0 fb0 env_term).step_count = 0 :=
  ⟨rfl, by norm_num [env_term, env0],
    (c_step_terminal_behavior [] mem0 mem0 fb0 fb0 env_term rfl).1,
    ((c_step_terminal_behavior [] mem0 mem0 fb0 fb0 env_term rfl).2
      (by norm_num [env_term, env0])).1⟩

/-- C3: immediately after c_reset on a live environment: previous facts
equal current facts, the unique-coordinate count is 1, the starting
coordinate is already marked visited in the current-episode array (so an
immediate re-visit is not new this episode), the reward and terminal
outputs, step counter, frame counter, cumulative score and stagnation
counter are all zero, and the event-score baseline equals the event score
computed from current memory. -/
theorem c_reset_spec (events : List (Nat × Nat)) (m : Mem) (fb : Nat → Nat)
    (env : PokemonRedEnv) (h : env.emu.core = true) :
    (c_reset events m fb env).prev_ram = (c_reset events m fb env).ram ∧
    (c_reset events m fb env).unique_coords_count = 1 ∧
    is_coord_visited (c_reset events m fb env)
      (coord_index (c_reset events m fb env).ram.map_n
        (c_reset events m fb env).ram.x (c_reset events m fb env).ram.y)
      = true ∧
    (c_reset events m fb env).rewards = 0 ∧
    (c_reset events m fb env).terminals = 0 ∧
    (c_reset events m fb env).step_count = 0 ∧
    (c_reset events m fb env).frame_count = 0 ∧
    (c_reset events m fb env).score = 0 ∧
    (c_reset events m fb env).stagnation = 0 ∧
    (c_reset events m fb env).prev_event_sum = calc_event_sum m events := by
  obtain ⟨h1, h2, h3, h4, h5, h6, h7, h8⟩ := reset_outputs events m fb env h
  refine ⟨?_, h7, ?_, h1, h2, h3, h4, h5, h6, h8⟩
  · rw [reset_prev_ram events m fb env h, reset_ram events m fb env h]
  · have hlt := coord_index_lt (update_ram m).map_n (update_ram m).x
      (update_ram m).y
    rw [reset_ram events m fb env h]
    simp only [is_coord_visited, reset_visited events m fb env h]
    rw [if_neg (by
      simp only [VISITED_COORDS_SIZE, MAX_MAPS, MAX_X, MAX_Y]
      omega)]
    simp only [step_idx, Function.update_same]
    decide

/-- Witness for C3 on a concrete live environment. -/
theorem c_reset_spec_witness :
    env0.emu.core = true ∧
    (c_reset [] mem0 fb0 env0).unique_coords_count = 1 ∧
    (c_reset [] mem0 fb0 env0).prev_ram = (c_reset [] mem0 fb0 env0).ram :=
  ⟨rfl, (c_reset_spec [] mem0 fb0 env0 rfl).2.1,
    (c_reset_spec [] mem0 fb0 env0 rfl).1⟩

/-- C8: the cross-episode array is seeded all-visited at construction; a
plain c_reset never touches it; on the step that reaches the episode
length limit it is replaced verbatim by the current-episode array as of
that tick (whose only change this tick is the mark on the current
coordinate), after which the internal reset leaves the current-episode
array holding only the new start tile; and on a non-terminating step the
only change to the cross-episode array is the per-tick novelty mark. -/
theorem cross_episode_memory (events : List (Nat × Nat)) (m mr : Mem)
    (fb fbr : Nat → Nat) (env : PokemonRedEnv) (h : env.emu.core = true) :
    (∀ i, (my_init_tracker env).prev_visited_coords i = 1) ∧
    (c_reset events m fb env).prev_visited_coords = env.prev_visited_coords ∧
    (env.step_count + 1 ≥ env.max_episode_length →
      (c_step events m mr fb fbr env).prev_visited_coords
        = (if is_coord_visited env (step_idx m) then env.visited_coords
            else Function.update env.visited_coords (step_idx m) 1) ∧
      (c_step events m mr fb fbr env).visited_coords
        = Function.update (fun _ => 0) (step_idx mr) 1) ∧
    (¬ env.step_count + 1 ≥ env.max_episode_length →
      (c_step events m mr fb fbr env).prev_visited_coords
        = (if env.prev_visited_coords (step_idx m) = 0 then
            Function.update env.prev_visited_coords (step_idx m) 1
           else env.prev_visited_coords)) := by
  refine ⟨fun i => rfl, reset_prev_visited events m fb env h, ?_, ?_⟩
  · intro hterm
    rw [c_step_eq_terminal events m mr fb fbr env h hterm]
    have hc : ({ add_log (c_step_tick events m fb env) with
        prev_visited_coords :=
          (c_step_tick events m fb env).visited_coords }).emu.core = true := by
      have e1 : ({ add_log (c_step_tick events m fb env) with
          prev_visited_coords :=
            (c_step_tick events m fb env).visited_coords }).emu
          = (add_log (c_step_tick events m fb env)).emu := rfl
      rw [e1, add_log_emu, tick_emu]
      exact h
    constructor
    · rw [reset_prev_visited _ _ _ _ hc]
      have e2 : ({ add_log (c_step_tick events m fb env) with
          prev_visited_coords :=
            (c_step_tick events m fb env).visited_coords }).prev_visited_coords
          = (c_step_tick events m fb env).visited_coords := rfl
      rw [e2, tick_visited]
    · rw [reset_visited _ _ _ _ hc]
  · intro hterm
    rw [c_step_eq_nonterm events m mr fb fbr env h hterm]
    rw [tick_prev_visited]

/-- Witness for C8: on a concrete live terminating environment, the
cross-episode array after the step holds the snapshot of the episode
trajectory (here: exactly the start coordinate). -/
theorem cross_episode_memory_witness :
    env_term.emu.core = true ∧
    env_term.step_count + 1 ≥ env_term.max_episode_length ∧
    (c_step [] mem0 mem0 fb0 fb0 env_term).prev_visited_coords
      = (if is_coord_visited env_term (step_idx mem0) then
          env_term.visited_coords
         else Function.update env_term.visited_coords (step_idx mem0) 1) :=
  ⟨rfl, by norm_num [env_term, env0],
    ((cross_episode_memory [] mem0 mem0 fb0 fb0 env_term rfl).2.2.1
      (by norm_num [env_term, env0])).1⟩

/-- C9: with the emulator handle absent, c_step and c_reset return the
environment (state and output buffers) unchanged, and c_close is
idempotent — closing an already-closed or handle-less instance is a
no-op. -/
theorem defensive_noop (events : List (Nat × Nat)) (m mr : Mem)
    (fb fbr : Nat → Nat) (env env2 : PokemonRedEnv)
    (h : env.emu.core = false) :
    c_step events m mr fb fbr env = env ∧
    c_reset events m fb env = env ∧
    c_close (c_close env2) = c_close env2 := by
  refine ⟨?_, ?_, ?_⟩
  · unfold c_step
    rw [h]
    rfl
  · unfold c_reset
    rw [h]
    rfl
  · rcases env2 with ⟨l, e, r, pr, o, a, rw1, t, tr, fc, sc, mel, s, st, v,
      pv, u, pes, fr⟩
    rcases e with ⟨c, vb, fs, sr⟩
    cases c <;> cases vb <;> cases sr <;> rfl

/-- Witness for C9 on a concrete handle-less environment. -/
theorem defensive_noop_witness :
    env_nocore.emu.core = false ∧
    c_step [] mem0 mem0 fb0 fb0 env_nocore = env_nocore ∧
    c_reset [] mem0 fb0 env_nocore = env_nocore :=
  ⟨rfl, (defensive_noop [] mem0 mem0 fb0 fb0 env_nocore env0 rfl).1,
    (defensive_noop [] mem0 mem0 fb0 fb0 env_nocore env0 rfl).2.1⟩

theorem luminance_eq_spec (p : Nat) : luminance p = spec_luminance p := by
  unfold luminance spec_luminance
  rw [show (0xFF : Nat) = 2 ^ 8 - 1 from rfl]
  rw [Nat.and_pow_two_sub_one_eq_mod, Nat.and_pow_two_sub_one_eq_mod,
    Nat.and_pow_two_sub_one_eq_mod]
  rw [Nat.shiftRight_eq_div_pow, Nat.shiftRight_eq_div_pow]
  norm_num

/-- C4: the observation encoder partitions the 160-wide, 144-high pixel
grid into non-overlapping 2x2 blocks, emits per block the sum of the four
pixel luminances L = 0.299 R + 0.587 G + 0.114 B times 0.25, in row-major
order at half the horizontal and half the vertical resolution, then
appends the five scalars x, y, map id, badge bitfield and party size in
that fixed order, cast and unnormalized; the output length is the
constant (half-width x half-height) + 5 on every call. -/
theorem update_observations_spec (fb : Nat → Nat) (env : PokemonRedEnv)
    (h : env.emu.video_buffer = true) :
    (update_observations fb env).observations.length = TOTAL_OBSERVATIONS ∧
    TOTAL_OBSERVATIONS = SCREEN_WIDTH / 2 * (144 / 2) + 5 ∧
    (∀ sy sx, sy < SCALED_HEIGHT → sx < SCALED_WIDTH →
      (update_observations fb env).observations.getD
          (sy * SCALED_WIDTH + sx) 0
        = (spec_luminance (fb ((sy * 2 + 0) * SCREEN_WIDTH + (sx * 2 + 0)))
          + spec_luminance (fb ((sy * 2 + 0) * SCREEN_WIDTH + (sx * 2 + 1)))
          + spec_luminance (fb ((sy * 2 + 1) * SCREEN_WIDTH + (sx * 2 + 0)))
          + spec_luminance (fb ((sy * 2 + 1) * SCREEN_WIDTH + (sx * 2 + 1))))
          * (25 / 100 : ℚ)) ∧
    (update_observations fb env).observations.getD (SCALED_PIXELS + 0) 0
      = (env.ram.x : ℚ) ∧
    (update_observations fb env).observations.getD (SCALED_PIXELS + 1) 0
      = (env.ram.y : ℚ) ∧
    (update_observations fb env).observations.getD (SCALED_PIXELS + 2) 0
      = (env.ram.map_n : ℚ) ∧
    (update_observations fb env).observations.getD (SCALED_PIXELS + 3) 0
      = (env.ram.badges : ℚ) ∧
    (update_observations fb env).observations.getD (SCALED_PIXELS + 4) 0
      = (env.ram.party_count : ℚ) := by
  rw [upd_obs_observations fb env h]
  refine ⟨?_, ?_, ?_, ?_, ?_, ?_, ?_, ?_⟩
  · unfold encode_observation
    rw [List.length_append, List.length_map, List.length_range]
    rfl
  · rfl
  · intro sy sx hsy hsx
    have hsy72 : sy < 72 := by
      simpa [SCALED_HEIGHT] using hsy
    have hsx80 : sx < 80 := by
      simpa [SCALED_WIDTH] using hsx
    have hidx : sy * SCALED_WIDTH + sx < SCALED_PIXELS := by
      simp only [SCALED_WIDTH, SCALED_PIXELS, SCALED_HEIGHT]
      omega
    unfold encode_observation
    rw [List.getD_append _ _ _ _ (by
      rw [List.length_map, List.length_range]
      exact hidx)]
    rw [List.getD_eq_getElem?_getD, List.getElem?_map, List.getElem?_range hidx]
    simp only [Option.map_some', Option.getD_some]
    have hdiv : (sy * SCALED_WIDTH + sx) / SCALED_WIDTH = sy := by
      simp only [SCALED_WIDTH]
      omega
    have hmod : (sy * SCALED_WIDTH + sx) % SCALED_WIDTH = sx := by
      simp only [SCALED_WIDTH]
      omega
    rw [hdiv, hmod]
    unfold block_gray_sum pixel_at
    rw [luminance_eq_spec, luminance_eq_spec, luminance_eq_spec,
      luminance_eq_spec]
    ring
  · unfold encode_observation
    rw [List.getD_append_right _ _ _ _ (by
      rw [List.length_map, List.length_range]
      omega)]
    rw [List.length_map, List.length_range]
    rfl
  · unfold encode_observation
    rw [List.getD_append_right _ _ _ _ (by
      rw [List.length_map, List.length_range]
      omega)]
    rw [List.length_map, List.length_range]
    rfl
  · unfold encode_observation
    rw [List.getD_append_right _ _ _ _ (by
      rw [List.length_map, List.length_range]
      omega)]
    rw [List.length_map, List.length_range]
    rfl
  · unfold encode_observation
    rw [List.getD_append_right _ _ _ _ (by
      rw [List.length_map, List.length_range]
      omega)]
    rw [List.length_map, List.length_range]
    rfl
  · unfold encode_observation
    rw [List.getD_append_right _ _ _ _ (by
      rw [List.length_map, List.length_range]
      omega)]
    rw [List.length_map, List.length_range]
    rfl

/-- Witness for C4 on a concrete live environment and framebuffer. -/
theorem update_observations_spec_witness :
    env0.emu.video_buffer = true ∧
    (update_observations fb0 env0).observations.length
      = TOTAL_OBSERVATIONS :=
  ⟨rfl, (update_observations_spec fb0 env0 rfl).1⟩
